import Mathlib

/-!
Verification development for the dashboard backend (`src/server/main.py`).

The file shallowly embeds the four HTTP handlers of the FastAPI application:
`health_check` (`GET /health`), `get_user_data` (`GET /user`),
`get_pdf_base64` (`GET /pdf`) and `chat_with_openai` (`POST /chat`).

Modelling conventions:
- Python dicts serialised to JSON are `JValue.obj` over ordered association
  lists (Python dicts preserve insertion order).
- A handler returning normally yields `HttpResult.ok body` (status 200); an
  `HTTPException(status, detail)` escaping the handler yields
  `HttpResult.error status detail` (FastAPI turns it into a JSON error).
- Python exceptions are the inductive `PyExc`.  Crucially,
  `fastapi.HTTPException` derives from `Exception`, so a bare
  `except Exception` clause inside the handler catches the handler's own
  `raise HTTPException(...)`.  The embedding keeps each handler's `try` body
  as a separate `Except PyExc`-valued function and applies the `except`
  clauses to whatever error the body produced, exactly as Python does.
- `str(e)` on an exception is `strOfExc`; for `HTTPException` it is
  "{status_code}: {detail}" (starlette's `__str__`).
- The OpenAI SDK class hierarchy has `AuthenticationError` and
  `RateLimitError` as subclasses of `APIError`; the predicates
  `isAuthenticationError`, `isRateLimitError`, `isAPIError` reflect that, and
  the `except` clauses are tried in source order.
- Truthiness of `os.getenv` results (`None` or a string) is `truthy`:
  `None` and `""` are falsy.
- The local file system seen by `/pdf` and `/health` is `FileSystem`:
  missing, readable with given bytes, or present but failing to read.
- Bytes are `Nat`s below 256; `base64.b64encode(...).decode('utf-8')` is
  `b64encode` producing the standard-alphabet, `=`-padded character list.
-/

namespace Dashboard

/-- JSON values, for response bodies. -/
inductive JValue where
  | s (v : String)
  | b (v : Bool)
  | i (v : Int)
  | arr (vs : List JValue)
  | obj (fields : List (String × JValue))

/-- Outcome of one HTTP request: a 200 body, or an error status with a detail
message (FastAPI's `HTTPException` serialisation). -/
inductive HttpResult where
  | ok (body : JValue)
  | error (status : Nat) (detail : String)

/-- HTTP status code of a result. -/
def statusOf : HttpResult → Nat
  | .ok _ => 200
  | .error s _ => s

/-- Python exception values relevant to the handlers.  `httpException` is
`fastapi.HTTPException`; the three `openai` errors mirror the SDK classes;
`indexError` is raised by `list[0]` on an empty list; `otherError` is any
other `Exception` (e.g. an `OSError` from the file read). -/
inductive PyExc where
  | httpException (status : Nat) (detail : String)
  | authenticationError (msg : String)
  | rateLimitError (msg : String)
  | apiError (msg : String)
  | indexError (msg : String)
  | otherError (msg : String)
deriving DecidableEq

/-- Does `except openai.AuthenticationError` catch `e`? -/
def isAuthenticationError : PyExc → Bool
  | .authenticationError _ => true
  | _ => false

/-- Does `except openai.RateLimitError` catch `e`? -/
def isRateLimitError : PyExc → Bool
  | .rateLimitError _ => true
  | _ => false

/-- Does `except openai.APIError` catch `e`?  `AuthenticationError` and
`RateLimitError` are subclasses of `APIError` in the SDK. -/
def isAPIError : PyExc → Bool
  | .authenticationError _ => true
  | .rateLimitError _ => true
  | .apiError _ => true
  | _ => false

/-- `str(e)`.  Starlette's `HTTPException.__str__` is
`f"{self.status_code}: {self.detail}"`; the library errors carry their
message. -/
def strOfExc : PyExc → String
  | .httpException status detail => toString status ++ ": " ++ detail
  | .authenticationError msg => msg
  | .rateLimitError msg => msg
  | .apiError msg => msg
  | .indexError msg => msg
  | .otherError msg => msg

/-- Python truthiness of an `os.getenv` result: `None` and `""` are falsy. -/
def truthy : Option String → Bool
  | none => false
  | some s => ! (s == "")

/-- `PDF_FILE_PATH = "document.pdf"` (main.py line 24). -/
def PDF_FILE_PATH : String := "document.pdf"

/-- State of the local file at `PDF_FILE_PATH` during one request:
absent, present with readable byte content, or present but raising an
`OSError` with the given text on open/read. -/
inductive FileSystem where
  | missing
  | present (content : List Nat)
  | unreadable (errText : String)
deriving DecidableEq

/-- `os.path.exists PDF_FILE_PATH`: true whenever the file is present,
readable or not. -/
def fsExists : FileSystem → Bool
  | .missing => false
  | _ => true

/-- The standard base64 alphabet, as used by `base64.b64encode`. -/
def b64Alphabet : List Char :=
  ['A', 'B', 'C', 'D', 'E', 'F', 'G', 'H', 'I', 'J', 'K', 'L', 'M',
   'N', 'O', 'P', 'Q', 'R', 'S', 'T', 'U', 'V', 'W', 'X', 'Y', 'Z',
   'a', 'b', 'c', 'd', 'e', 'f', 'g', 'h', 'i', 'j', 'k', 'l', 'm',
   'n', 'o', 'p', 'q', 'r', 's', 't', 'u', 'v', 'w', 'x', 'y', 'z',
   '0', '1', '2', '3', '4', '5', '6', '7', '8', '9', '+', '/']

/-- Character for one six-bit group (only ever applied below 64). -/
def encChar (n : Nat) : Char := b64Alphabet.getD n '?'

/-- Six-bit value of one base64 character. -/
def decChar (c : Char) : Nat := b64Alphabet.indexOf c

/-- `base64.b64encode` on a byte sequence: three bytes become four alphabet
characters; a final one- or two-byte group is padded with `=`. -/
def b64encode : List Nat → List Char
  | [] => []
  | [a] => [encChar (a / 4), encChar (a % 4 * 16), '=', '=']
  | [a, b] => [encChar (a / 4), encChar (a % 4 * 16 + b / 16), encChar (b % 16 * 4), '=']
  | a :: b :: c :: rest =>
      encChar (a / 4) :: encChar (a % 4 * 16 + b / 16) ::
      encChar (b % 16 * 4 + c / 64) :: encChar (c % 64) :: b64encode rest

/-- Standard base64 decoding of a well-formed encoding: four characters give
three bytes, with `=` padding cutting the last group to one or two bytes. -/
def b64decode : List Char → List Nat
  | c0 :: c1 :: c2 :: c3 :: rest =>
      if c2 = '=' then
        [decChar c0 * 4 + decChar c1 / 16]
      else if c3 = '=' then
        [decChar c0 * 4 + decChar c1 / 16, decChar c1 % 16 * 16 + decChar c2 / 4]
      else
        (decChar c0 * 4 + decChar c1 / 16) ::
        (decChar c1 % 16 * 16 + decChar c2 / 4) ::
        (decChar c2 % 4 * 64 + decChar c3) :: b64decode rest
  | _ => []

/-- The `try` body of `get_pdf_base64` (main.py lines 100-106).  A missing
file raises `HTTPException(404, f"PDF file '{PDF_FILE_PATH}' not found")`; a
failing read raises the underlying `OSError`; otherwise the bytes are read
and base64-encoded. -/
def pdfTryBody (fs : FileSystem) : Except PyExc JValue :=
  match fs with
  | .missing =>
      .error (.httpException 404 ("PDF file \x27" ++ PDF_FILE_PATH ++ "\x27 not found"))
  | .unreadable errText => .error (.otherError errText)
  | .present content =>
      .ok (.obj [("success", .b true), ("data", .s (String.mk (b64encode content)))])

/-- `GET /pdf` (main.py lines 98-108).  The `except Exception` clause catches
every exception raised by the body — including the handler's own 404
`HTTPException` — and re-raises
`HTTPException(500, f"Error processing PDF file: {str(e)}")`. -/
def get_pdf_base64 (fs : FileSystem) : HttpResult :=
  match pdfTryBody fs with
  | .ok v => .ok v
  | .error e => .error 500 ("Error processing PDF file: " ++ strOfExc e)

/-- Pydantic model `ChatMessage` (main.py lines 33-35): `role` is a plain
`str` — the comment lists "user", "assistant", "system" but nothing
constrains the value — and `content` is a `str`. -/
structure ChatMessage where
  role : String
  content : String

/-- Pydantic model `ChatRequest` (main.py lines 37-41).  Pydantic defaults:
`model = "gpt-3.5-turbo"`, `max_tokens = 150`, `temperature = 0.7`.  The
temperature is only ever passed through, never computed with, so it is
modelled as a rational. -/
structure ChatRequest where
  messages : List ChatMessage
  model : String
  max_tokens : Int
  temperature : Rat

/-- `ChatRequest` with the pydantic field defaults filled in. -/
def defaultChatRequest (messages : List ChatMessage) : ChatRequest :=
  ⟨messages, "gpt-3.5-turbo", 150, 7 / 10⟩

/-- One element of `response.choices`; `message_content` is
`choice.message.content`. -/
structure Choice where
  message_content : String

/-- The remote service's reply object: `response.choices`. -/
structure Completion where
  choices : List Choice

/-- The `OpenAI(api_key=...)` client object (opaque beyond its key). -/
structure OpenAIClient where
  api_key : Option String
deriving DecidableEq

/-- Module-level startup (main.py line 21):
`openai_client = OpenAI(api_key=openai_api_key) if openai_api_key else None`. -/
def openai_client (openai_api_key : Option String) : Option OpenAIClient :=
  if truthy openai_api_key then some ⟨openai_api_key⟩ else none

/-- Arguments of one `openai_client.chat.completions.create(...)` call
(main.py lines 121-126): the messages are the plain role/content pairs built
on line 119. -/
structure RemoteCall where
  model : String
  messages : List (String × String)
  max_tokens : Int
  temperature : Rat

/-- The `try` body of `chat_with_openai` (main.py lines 112-129), with the
remote service abstracted as `behavior`.  Returns the body's outcome together
with the list of remote calls actually issued.  The two precondition checks
raise `HTTPException(500, ...)` in source order before any remote call; an
empty `response.choices` makes `response.choices[0]` raise
`IndexError("list index out of range")`. -/
def chatTryBody (openai_api_key : Option String) (client : Option OpenAIClient)
    (behavior : RemoteCall → Except PyExc Completion) (chat_request : ChatRequest) :
    Except PyExc JValue × List RemoteCall :=
  if truthy openai_api_key = false then
    (.error (.httpException 500 "OpenAI API key not configured"), [])
  else if client.isNone then
    (.error (.httpException 500 "OpenAI client not initialized"), [])
  else
    let messages := chat_request.messages.map fun msg => (msg.role, msg.content)
    let call : RemoteCall :=
      ⟨chat_request.model, messages, chat_request.max_tokens, chat_request.temperature⟩
    match behavior call with
    | .error e => (.error e, [call])
    | .ok response =>
        match response.choices with
        | [] => (.error (.indexError "list index out of range"), [call])
        | choice :: _ => (.ok (.obj [("response", .s choice.message_content)]), [call])

/-- The `except` clauses of `chat_with_openai` (main.py lines 130-137),
tried in source order.  `HTTPException` is none of the `openai` classes, so
the handler's own precondition exceptions fall through to the final
`except Exception` clause. -/
def handleChatExc (e : PyExc) : HttpResult :=
  if isAuthenticationError e then .error 401 "Invalid OpenAI API key"
  else if isRateLimitError e then .error 429 "OpenAI API rate limit exceeded"
  else if isAPIError e then .error 500 ("OpenAI API error: " ++ strOfExc e)
  else .error 500 ("Error processing chat request: " ++ strOfExc e)

/-- `POST /chat` (main.py lines 110-137): run the `try` body, then translate
any exception through the `except` chain. -/
def chat_with_openai (openai_api_key : Option String) (client : Option OpenAIClient)
    (behavior : RemoteCall → Except PyExc Completion) (chat_request : ChatRequest) :
    HttpResult × List RemoteCall :=
  match chatTryBody openai_api_key client behavior chat_request with
  | (.ok v, calls) => (.ok v, calls)
  | (.error e, calls) => (handleChatExc e, calls)

/-- First-match lookup in a Python dict modelled as an ordered association
list (keys are unique in an actual dict, so first match is the match). -/
def dlookup (k : String) : List (String × JValue) → Option JValue
  | [] => none
  | p :: rest => if p.1 = k then some p.2 else dlookup k rest

/-- Does the dict have key `k`? -/
def hasKey (d : List (String × JValue)) (k : String) : Bool :=
  d.any fun p => p.1 == k

/-- Python dict-literal update semantics for `{**d, k: v}`: if `k` is
already present its value is replaced in place, otherwise the pair is
appended. -/
def dictInsert (d : List (String × JValue)) (k : String) (v : JValue) :
    List (String × JValue) :=
  if hasKey d k then d.map (fun p => if p.1 = k then (k, v) else p) else d ++ [(k, v)]

/-- The dict literal of main.py lines 88-92:
`{**DEFAULT_USER_PROFILE, "suggestedActions": ..., "documents": ...}`. -/
def mergeUserData (profile : List (String × JValue)) (actions documents : List JValue) :
    List (String × JValue) :=
  dictInsert (dictInsert profile "suggestedActions" (.arr actions)) "documents" (.arr documents)

/-- `GET /user` (main.py lines 84-96).  The body only assembles in-memory
constants, so the `except` clause never fires. -/
def get_user_data (profile : List (String × JValue)) (actions documents : List JValue) :
    HttpResult :=
  .ok (.obj [("success", .b true), ("data", .obj (mergeUserData profile actions documents))])

/-- Modelled from the spec: the contents of `DEFAULT_USER_PROFILE` live in
`data/user_data.py`, which is not under `src/`.  Spec §3 describes it as an
opaque read-only profile mapping whose two sub-collections
`suggestedActions` and `documents` are kept separately from it, so the base
profile itself does not use those two keys.  A representative concrete
profile standing in for the real constant. -/
def DEFAULT_USER_PROFILE : List (String × JValue) :=
  [("name", .s "Maya"), ("email", .s "maya@example.com"), ("language", .s "en")]

/-- Modelled from the spec: `SUGGESTED_ACTIONS_DATA` (an ordered sequence of
action descriptors) lives in `data/user_data.py`, not under `src/`. -/
def SUGGESTED_ACTIONS_DATA : List JValue :=
  [.obj [("id", .s "a1"), ("title", .s "Complete profile")]]

/-- Modelled from the spec: `DOCUMENTS_DATA` (an ordered sequence of document
descriptors) lives in `data/user_data.py`, not under `src/`. -/
def DOCUMENTS_DATA : List JValue :=
  [.obj [("id", .s "d1"), ("title", .s "Passport")]]

/-- Decimal digit character; total, with digits beyond 9 never reached since
every argument below is reduced mod 10. -/
def digitChar : Nat → Char
  | 0 => '0'
  | 1 => '1'
  | 2 => '2'
  | 3 => '3'
  | 4 => '4'
  | 5 => '5'
  | 6 => '6'
  | 7 => '7'
  | 8 => '8'
  | 9 => '9'
  | _ => '0'

/-- Two-digit zero-padded decimal rendering (`%02d`). -/
def pad2 (n : Nat) : List Char := [digitChar (n / 10 % 10), digitChar (n % 10)]

/-- Four-digit zero-padded decimal rendering (`%04d`). -/
def pad4 (n : Nat) : List Char :=
  [digitChar (n / 1000 % 10), digitChar (n / 100 % 10),
   digitChar (n / 10 % 10), digitChar (n % 10)]

/-- Six-digit zero-padded decimal rendering (`%06d`). -/
def pad6 (n : Nat) : List Char :=
  [digitChar (n / 100000 % 10), digitChar (n / 10000 % 10),
   digitChar (n / 1000 % 10), digitChar (n / 100 % 10),
   digitChar (n / 10 % 10), digitChar (n % 10)]

/-- A `datetime.datetime` value as produced by `datetime.now()`. -/
structure PyDateTime where
  year : Nat
  month : Nat
  day : Nat
  hour : Nat
  minute : Nat
  second : Nat
  microsecond : Nat
deriving DecidableEq

/-- `datetime.isoformat()`: `YYYY-MM-DDTHH:MM:SS`, with `.ffffff` appended
exactly when the microsecond field is nonzero. -/
def PyDateTime.isoformat (t : PyDateTime) : List Char :=
  pad4 t.year ++ ['-'] ++ pad2 t.month ++ ['-'] ++ pad2 t.day ++ ['T'] ++
  pad2 t.hour ++ [':'] ++ pad2 t.minute ++ [':'] ++ pad2 t.second ++
  (if t.microsecond = 0 then [] else '.' :: pad6 t.microsecond)

/-- Fractional-seconds part of an ISO-8601 timestamp: empty, or a dot
followed by exactly six digits. -/
def isFrac : List Char → Bool
  | [] => true
  | c :: rest => c == '.' && rest.length == 6 && rest.all Char.isDigit

/-- Well-formedness check for an ISO-8601 date-time string of the shape
`YYYY-MM-DDTHH:MM:SS[.ffffff]`. -/
def isIso8601 : List Char → Bool
  | y1 :: y2 :: y3 :: y4 :: sA :: mo1 :: mo2 :: sB :: d1 :: d2 :: sC ::
      h1 :: h2 :: sD :: mi1 :: mi2 :: sE :: se1 :: se2 :: rest =>
      y1.isDigit && y2.isDigit && y3.isDigit && y4.isDigit && sA == '-' &&
      mo1.isDigit && mo2.isDigit && sB == '-' && d1.isDigit && d2.isDigit &&
      sC == 'T' && h1.isDigit && h2.isDigit && sD == ':' &&
      mi1.isDigit && mi2.isDigit && sE == ':' && se1.isDigit && se2.isDigit &&
      isFrac rest
  | _ => false

/-- `GET /health` (main.py lines 68-77): a plain dict return, no `try`, no
error path.  `version` is `os.getenv("API_VERSION", "v1")`;
`pdf_exists` is `os.path.exists(PDF_FILE_PATH)`; `openai_configured` is
`bool(openai_api_key)`. -/
def health_check (now : PyDateTime) (apiVersion : Option String) (fs : FileSystem)
    (openai_api_key : Option String) : HttpResult :=
  .ok (.obj [("success", .b true),
    ("message", .s "MayaCode Backend API is running"),
    ("timestamp", .s (String.mk now.isoformat)),
    ("version", .s (apiVersion.getD "v1")),
    ("pdf_exists", .b (fsExists fs)),
    ("openai_configured", .b (truthy openai_api_key))])

/-! ## Base64 round-trip -/

/-- Decoding inverts encoding on each six-bit group. -/
theorem decChar_encChar : ∀ n, n < 64 → decChar (encChar n) = n := by decide

/-- No alphabet character (and not the out-of-range default either) is the
padding character. -/
theorem encChar_ne_pad (n : Nat) : encChar n ≠ '=' := by
  by_cases h : n < 64
  · have hall : ∀ m, m < 64 → encChar m ≠ '=' := by decide
    exact hall n h
  · have hlen : b64Alphabet.length ≤ n := by
      have h64 : b64Alphabet.length = 64 := by decide
      omega
    unfold encChar
    rw [List.getD_eq_getElem?_getD, List.getElem?_eq_none hlen]
    decide

/-- Base64 decoding inverts base64 encoding on any byte sequence. -/
theorem b64_roundtrip :
    ∀ (l : List Nat), (∀ x ∈ l, x < 256) → b64decode (b64encode l) = l
  | [], _ => rfl
  | [a], h => by
      have ha : a < 256 := h a (by simp)
      simp only [b64encode, b64decode, if_true]
      rw [decChar_encChar (a / 4) (by omega),
        decChar_encChar (a % 4 * 16) (by omega)]
      simp only [List.cons.injEq, and_true]
      omega
  | [a, b], h => by
      have ha : a < 256 := h a (by simp)
      have hb : b < 256 := h b (by simp)
      simp only [b64encode, b64decode, if_true]
      rw [if_neg (encChar_ne_pad (b % 16 * 4)),
        decChar_encChar (a / 4) (by omega),
        decChar_encChar (a % 4 * 16 + b / 16) (by omega),
        decChar_encChar (b % 16 * 4) (by omega)]
      simp only [List.cons.injEq, and_true]
      omega
  | a :: b :: c :: rest, h => by
      have ha : a < 256 := h a (by simp)
      have hb : b < 256 := h b (by simp)
      have hc : c < 256 := h c (by simp)
      have ih := b64_roundtrip rest (fun x hx => h x (by simp [hx]))
      simp only [b64encode, b64decode]
      rw [if_neg (encChar_ne_pad (b % 16 * 4 + c / 64)),
        if_neg (encChar_ne_pad (c % 64)),
        decChar_encChar (a / 4) (by omega),
        decChar_encChar (a % 4 * 16 + b / 16) (by omega),
        decChar_encChar (b % 16 * 4 + c / 64) (by omega),
        decChar_encChar (c % 64) (by omega), ih]
      simp only [List.cons.injEq, and_true]
      omega

/-! ## The `/pdf` endpoint -/

/-- Claim C1, evaluated on the code at the failing input: with no file at
the configured path the handler does NOT answer 404.  Its own
`HTTPException(404, ...)` is raised inside the `try` block and caught by the
handler's own `except Exception` clause, which re-raises a 500 wrapping
`str(e)`; only the other-I/O-failure half of the claim behaves as stated
(500 with the underlying error text embedded). -/
theorem pdf_missing_wrapped_500 :
    get_pdf_base64 .missing =
      .error 500 "Error processing PDF file: 404: PDF file \x27document.pdf\x27 not found" ∧
    statusOf (get_pdf_base64 .missing) = 500 ∧
    (∀ errText, get_pdf_base64 (.unreadable errText) =
      .error 500 ("Error processing PDF file: " ++ errText)) :=
  ⟨rfl, rfl, fun _ => rfl⟩

/-- Claim C7: a successful `/pdf` call answers 200 with `success: true` and
a base64 `data` string, and base64-decoding that string reproduces exactly
the bytes read from the file. -/
theorem pdf_base64_roundtrip (content : List Nat) (h : ∀ x ∈ content, x < 256) :
    get_pdf_base64 (.present content) =
      .ok (.obj [("success", .b true), ("data", .s (String.mk (b64encode content)))]) ∧
    b64decode (b64encode content) = content :=
  ⟨rfl, b64_roundtrip content h⟩

/-- Witness for `pdf_base64_roundtrip` at the byte sequence `[77, 97, 121, 97]`. -/
theorem pdf_base64_roundtrip_witness :
    (∀ x ∈ [77, 97, 121, 97], x < 256) ∧
    (get_pdf_base64 (.present [77, 97, 121, 97]) =
      .ok (.obj [("success", .b true),
        ("data", .s (String.mk (b64encode [77, 97, 121, 97])))]) ∧
    b64decode (b64encode [77, 97, 121, 97]) = [77, 97, 121, 97]) :=
  ⟨by decide, pdf_base64_roundtrip [77, 97, 121, 97] (by decide)⟩

/-! ## The `/chat` endpoint -/

/-- The call list of the handler is the call list of its `try` body: the
`except` chain only translates the outcome. -/
theorem chat_calls_eq (openai_api_key : Option String) (client : Option OpenAIClient)
    (behavior : RemoteCall → Except PyExc Completion) (chat_request : ChatRequest) :
    (chat_with_openai openai_api_key client behavior chat_request).2 =
      (chatTryBody openai_api_key client behavior chat_request).2 := by
  unfold chat_with_openai
  rcases h : chatTryBody openai_api_key client behavior chat_request with ⟨res, calls⟩
  rcases res with v | e <;> simp

/-- With a truthy key and a present client, the `try` body issues exactly
one remote call, carrying the request's model, the order-preserving
role/content pairs of its messages, its max_tokens and its temperature. -/
theorem chatTryBody_calls (openai_api_key : Option String)
    (hkey : truthy openai_api_key = true) (cl : OpenAIClient)
    (behavior : RemoteCall → Except PyExc Completion) (chat_request : ChatRequest) :
    (chatTryBody openai_api_key (some cl) behavior chat_request).2 =
      [⟨chat_request.model,
        chat_request.messages.map fun msg => (msg.role, msg.content),
        chat_request.max_tokens, chat_request.temperature⟩] := by
  unfold chatTryBody
  simp only [hkey, Bool.true_eq_false, Option.isNone_some, Bool.false_eq_true, if_false]
  split
  · rfl
  · split <;> rfl

/-- Claim C2, evaluated on the code at the failing inputs: with no key
configured `/chat` does answer 500 before any remote call — the key check
runs first (an absent client changes nothing) and the client check second —
but the message is NOT exactly "OpenAI API key not configured": the
precondition's own `HTTPException` is caught by the handler's final
`except Exception` clause and re-raised with `str(e)` wrapped into
"Error processing chat request: ...".  Likewise for the client message. -/
theorem chat_missing_key_wrapped (client : Option OpenAIClient)
    (behavior : RemoteCall → Except PyExc Completion) (chat_request : ChatRequest) :
    chat_with_openai none client behavior chat_request =
      (.error 500 "Error processing chat request: 500: OpenAI API key not configured", []) ∧
    chat_with_openai (some "sk-test") none behavior chat_request =
      (.error 500 "Error processing chat request: 500: OpenAI client not initialized", []) := by
  constructor <;> rfl

/-- Claim C9: the startup line builds the client exactly when the key is
truthy, so with the startup-produced client the `try` body can never take
the "OpenAI client not initialized" branch (the only outcome pairing that
exception with an empty call list). -/
theorem client_init_iff_key (openai_api_key : Option String)
    (behavior : RemoteCall → Except PyExc Completion) (chat_request : ChatRequest) :
    (openai_client openai_api_key).isSome = truthy openai_api_key ∧
    chatTryBody openai_api_key (openai_client openai_api_key) behavior chat_request ≠
      (.error (.httpException 500 "OpenAI client not initialized"), []) := by
  constructor
  · unfold openai_client
    cases h : truthy openai_api_key <;> simp
  · cases h : truthy openai_api_key
    · have hc : chatTryBody openai_api_key (openai_client openai_api_key) behavior
          chat_request =
          (.error (.httpException 500 "OpenAI API key not configured"), []) := by
        unfold chatTryBody
        rw [h]
        simp
      rw [hc]
      intro hcontra
      have := congrArg Prod.fst hcontra
      simp at this
    · have hcl : openai_client openai_api_key = some ⟨openai_api_key⟩ := by
        unfold openai_client
        rw [h]
        rfl
      rw [hcl]
      intro hcontra
      have := congrArg Prod.snd hcontra
      rw [chatTryBody_calls openai_api_key h ⟨openai_api_key⟩ behavior chat_request] at this
      simp at this

/-- Claim C3 counterexample: a message whose role is "banana" — none of
user/assistant/system — is not rejected: with key and client configured the
request reaches the remote service carrying that role verbatim, and the
response is a 200. -/
theorem chat_role_unvalidated_cex :
    (chat_with_openai (some "sk-test") (openai_client (some "sk-test"))
        (fun _ => .ok ⟨[⟨"Hi there"⟩]⟩)
        ⟨[⟨"banana", "Hello"⟩], "gpt-3.5-turbo", 150, 7 / 10⟩).2 =
      [⟨"gpt-3.5-turbo", [("banana", "Hello")], 150, 7 / 10⟩] ∧
    statusOf (chat_with_openai (some "sk-test") (openai_client (some "sk-test"))
        (fun _ => .ok ⟨[⟨"Hi there"⟩]⟩)
        ⟨[⟨"banana", "Hello"⟩], "gpt-3.5-turbo", 150, 7 / 10⟩).1 = 200 := by
  constructor <;> rfl

/-- Claim C3 amended: `ChatMessage.role` is an unvalidated plain string.
Once the key and client preconditions pass, every request — whatever role
strings it carries — is forwarded to the remote service as exactly one call
whose message list is the order-preserving role/content image of the
request's messages; no role check rejects it. -/
theorem chat_role_passthrough (openai_api_key : Option String)
    (hkey : truthy openai_api_key = true)
    (behavior : RemoteCall → Except PyExc Completion) (chat_request : ChatRequest) :
    (chat_with_openai openai_api_key (openai_client openai_api_key) behavior
        chat_request).2 =
      [⟨chat_request.model,
        chat_request.messages.map fun msg => (msg.role, msg.content),
        chat_request.max_tokens, chat_request.temperature⟩] := by
  have hcl : openai_client openai_api_key = some ⟨openai_api_key⟩ := by
    unfold openai_client
    rw [hkey]
    rfl
  rw [chat_calls_eq, hcl]
  exact chatTryBody_calls openai_api_key hkey ⟨openai_api_key⟩ behavior chat_request

/-- Witness for `chat_role_passthrough`: a "tool"-role message is forwarded
unchanged. -/
theorem chat_role_passthrough_witness :
    truthy (some "sk-test") = true ∧
    (chat_with_openai (some "sk-test") (openai_client (some "sk-test"))
        (fun _ => .error (.apiError "boom"))
        ⟨[⟨"tool", "x"⟩], "gpt-4", 99, 1 / 2⟩).2 =
      [⟨"gpt-4", [("tool", "x")], 99, 1 / 2⟩] :=
  ⟨rfl, chat_role_passthrough (some "sk-test") rfl
    (fun _ => .error (.apiError "boom")) ⟨[⟨"tool", "x"⟩], "gpt-4", 99, 1 / 2⟩⟩

/-- Claim C5: with key and client configured and the remote call succeeding,
the handler issues exactly one remote call carrying the request's model, its
messages mapped to role/content pairs index-by-index (order preserved), its
max_tokens and its temperature; the first choice's content is extracted and
the answer is status 200 with body exactly `{response: string}` — in
particular the body has no `usage` key. -/
theorem chat_success_contract (openai_api_key : Option String)
    (hkey : truthy openai_api_key = true) (chat_request : ChatRequest)
    (first : Choice) (rest : List Choice) :
    chat_with_openai openai_api_key (openai_client openai_api_key)
        (fun _ => .ok ⟨first :: rest⟩) chat_request =
      (.ok (.obj [("response", .s first.message_content)]),
        [⟨chat_request.model,
          chat_request.messages.map fun msg => (msg.role, msg.content),
          chat_request.max_tokens, chat_request.temperature⟩]) ∧
    statusOf (chat_with_openai openai_api_key (openai_client openai_api_key)
        (fun _ => .ok ⟨first :: rest⟩) chat_request).1 = 200 ∧
    dlookup "usage" [("response", .s first.message_content)] = none ∧
    (∀ i : Nat,
      (chat_request.messages.map fun msg => (msg.role, msg.content))[i]? =
        chat_request.messages[i]?.map fun msg => (msg.role, msg.content)) := by
  have hcl : openai_client openai_api_key = some ⟨openai_api_key⟩ := by
    unfold openai_client
    rw [hkey]
    rfl
  have h1 : chat_with_openai openai_api_key (openai_client openai_api_key)
      (fun _ => .ok ⟨first :: rest⟩) chat_request =
      (.ok (.obj [("response", .s first.message_content)]),
        [⟨chat_request.model,
          chat_request.messages.map fun msg => (msg.role, msg.content),
          chat_request.max_tokens, chat_request.temperature⟩]) := by
    rw [hcl]
    unfold chat_with_openai chatTryBody
    simp [hkey]
  exact ⟨h1, by rw [h1]; rfl, rfl, fun i => by simp⟩

/-- Witness for `chat_success_contract`: the spec's example — one user
message "Hello" with the pydantic defaults, stub choice text "Hi there" —
yields `{response: "Hi there"}` and one remote call. -/
theorem chat_success_contract_witness :
    truthy (some "sk-test") = true ∧
    chat_with_openai (some "sk-test") (openai_client (some "sk-test"))
        (fun _ => .ok ⟨[⟨"Hi there"⟩]⟩) (defaultChatRequest [⟨"user", "Hello"⟩]) =
      (.ok (.obj [("response", .s "Hi there")]),
        [⟨"gpt-3.5-turbo", [("user", "Hello")], 150, 7 / 10⟩]) :=
  ⟨rfl, (chat_success_contract (some "sk-test") rfl
    (defaultChatRequest [⟨"user", "Hello"⟩]) ⟨"Hi there"⟩ []).1⟩

/-- Claim C4: a failing remote call is mapped through the `except` chain in
source order — authentication failure 401 "Invalid OpenAI API key", rate
limit 429 "OpenAI API rate limit exceeded", generic API error 500 with the
error text embedded, any other exception 500 with the error text embedded —
and exactly one remote call is made (no retry). -/
theorem chat_error_mapping (openai_api_key : Option String)
    (hkey : truthy openai_api_key = true) (chat_request : ChatRequest) (e : PyExc) :
    (chat_with_openai openai_api_key (openai_client openai_api_key)
        (fun _ => .error e) chat_request).1 = handleChatExc e ∧
    (chat_with_openai openai_api_key (openai_client openai_api_key)
        (fun _ => .error e) chat_request).2.length = 1 ∧
    (isAuthenticationError e = true →
      handleChatExc e = .error 401 "Invalid OpenAI API key") ∧
    (isAuthenticationError e = false → isRateLimitError e = true →
      handleChatExc e = .error 429 "OpenAI API rate limit exceeded") ∧
    (isAuthenticationError e = false → isRateLimitError e = false →
      isAPIError e = true →
      handleChatExc e = .error 500 ("OpenAI API error: " ++ strOfExc e)) ∧
    (isAPIError e = false →
      handleChatExc e = .error 500 ("Error processing chat request: " ++ strOfExc e)) := by
  have hcl : openai_client openai_api_key = some ⟨openai_api_key⟩ := by
    unfold openai_client
    rw [hkey]
    rfl
  have h1 : chat_with_openai openai_api_key (openai_client openai_api_key)
      (fun _ => .error e) chat_request =
      (handleChatExc e,
        [⟨chat_request.model,
          chat_request.messages.map fun msg => (msg.role, msg.content),
          chat_request.max_tokens, chat_request.temperature⟩]) := by
    rw [hcl]
    unfold chat_with_openai chatTryBody
    simp [hkey]
  refine ⟨by rw [h1], by rw [h1]; rfl, ?_, ?_, ?_, ?_⟩ <;>
    cases e <;>
    simp [handleChatExc, isAuthenticationError, isRateLimitError, isAPIError]

/-- Witness for `chat_error_mapping` at an authentication failure. -/
theorem chat_error_mapping_witness :
    truthy (some "sk-test") = true ∧
    (chat_with_openai (some "sk-test") (openai_client (some "sk-test"))
        (fun _ => .error (.authenticationError "bad key"))
        (defaultChatRequest [⟨"user", "Hello"⟩])).1 =
      handleChatExc (.authenticationError "bad key") :=
  ⟨rfl, (chat_error_mapping (some "sk-test") rfl
    (defaultChatRequest [⟨"user", "Hello"⟩]) (.authenticationError "bad key")).1⟩

/-- Claim C10: a successful remote call with an empty `choices` sequence
makes `response.choices[0]` raise `IndexError`; the final `except` clause
catches it and the handler answers a structured 500 embedding the error
text — and for every remote behavior the handler's outcome is a plain `ok`
or `error` value, never an escaping exception. -/
theorem chat_empty_choices (openai_api_key : Option String)
    (hkey : truthy openai_api_key = true) (chat_request : ChatRequest) :
    (chat_with_openai openai_api_key (openai_client openai_api_key)
        (fun _ => .ok ⟨[]⟩) chat_request).1 =
      .error 500 "Error processing chat request: list index out of range" ∧
    statusOf (chat_with_openai openai_api_key (openai_client openai_api_key)
        (fun _ => .ok ⟨[]⟩) chat_request).1 = 500 ∧
    (∀ behavior : RemoteCall → Except PyExc Completion,
      (∃ body, (chat_with_openai openai_api_key (openai_client openai_api_key)
          behavior chat_request).1 = .ok body) ∨
      (∃ status detail, (chat_with_openai openai_api_key (openai_client openai_api_key)
          behavior chat_request).1 = .error status detail)) := by
  have hcl : openai_client openai_api_key = some ⟨openai_api_key⟩ := by
    unfold openai_client
    rw [hkey]
    rfl
  have h1 : (chat_with_openai openai_api_key (openai_client openai_api_key)
      (fun _ => .ok ⟨[]⟩) chat_request).1 =
      .error 500 "Error processing chat request: list index out of range" := by
    rw [hcl]
    unfold chat_with_openai chatTryBody
    simp [hkey]
    rfl
  refine ⟨h1, by rw [h1]; rfl, fun behavior => ?_⟩
  rcases hres : (chat_with_openai openai_api_key (openai_client openai_api_key)
      behavior chat_request).1 with ⟨body⟩ | ⟨status, detail⟩
  · exact Or.inl ⟨body, rfl⟩
  · exact Or.inr ⟨status, detail, rfl⟩

/-- Witness for `chat_empty_choices` at a configured key and the default
request. -/
theorem chat_empty_choices_witness :
    truthy (some "sk-test") = true ∧
    (chat_with_openai (some "sk-test") (openai_client (some "sk-test"))
        (fun _ => .ok ⟨[]⟩) (defaultChatRequest [⟨"user", "Hello"⟩])).1 =
      .error 500 "Error processing chat request: list index out of range" :=
  ⟨rfl, (chat_empty_choices (some "sk-test") rfl
    (defaultChatRequest [⟨"user", "Hello"⟩])).1⟩

/-! ## The `/user` endpoint -/

/-- A key found in the left dict is looked up there in the concatenation. -/
theorem dlookup_append_left (k : String) (d1 d2 : List (String × JValue))
    (v : JValue) (h : dlookup k d1 = some v) : dlookup k (d1 ++ d2) = some v := by
  induction d1 with
  | nil => simp [dlookup] at h
  | cons p rest ih =>
    rw [List.cons_append]
    simp only [dlookup] at h ⊢
    by_cases hp : p.1 = k
    · simpa [hp] using h
    · rw [if_neg hp] at h ⊢
      exact ih h

/-- A key absent from the left dict is looked up in the right one. -/
theorem dlookup_append_right (k : String) (d1 d2 : List (String × JValue))
    (h : dlookup k d1 = none) : dlookup k (d1 ++ d2) = dlookup k d2 := by
  induction d1 with
  | nil => rfl
  | cons p rest ih =>
    rw [List.cons_append]
    simp only [dlookup] at h
    conv_lhs => simp only [dlookup]
    by_cases hp : p.1 = k
    · simp [hp] at h
    · rw [if_neg hp] at h ⊢
      exact ih h

/-- An absent key fails the membership probe. -/
theorem hasKey_eq_false (k : String) (d : List (String × JValue))
    (h : dlookup k d = none) : hasKey d k = false := by
  induction d with
  | nil => rfl
  | cons p rest ih =>
    simp only [dlookup] at h
    by_cases hp : p.1 = k
    · simp [hp] at h
    · rw [if_neg hp] at h
      have hr := ih h
      simp only [hasKey, List.any_cons] at hr ⊢
      rw [hr]
      simp [hp]

/-- `{**d, k: v}` with `k` absent from `d` appends the new pair. -/
theorem dictInsert_not_mem (d : List (String × JValue)) (k : String) (v : JValue)
    (h : dlookup k d = none) : dictInsert d k v = d ++ [(k, v)] := by
  unfold dictInsert
  rw [hasKey_eq_false k d h]
  simp

/-- With no key collision, the `/user` merge is the base profile with the
two sub-collections appended. -/
theorem mergeUserData_eq (profile : List (String × JValue))
    (actions documents : List JValue)
    (h1 : dlookup "suggestedActions" profile = none)
    (h2 : dlookup "documents" profile = none) :
    mergeUserData profile actions documents =
      profile ++ [("suggestedActions", .arr actions), ("documents", .arr documents)] := by
  unfold mergeUserData
  rw [dictInsert_not_mem profile _ _ h1]
  have h2' : dlookup "documents" (profile ++ [("suggestedActions", .arr actions)]) = none := by
    rw [dlookup_append_right _ _ _ h2]
    rfl
  rw [dictInsert_not_mem _ _ _ h2']
  simp

/-- Claim C6: every successful `/user` response carries `suggestedActions`
and `documents` as sequences together with every field of the base profile,
and no base-profile field is dropped by a key collision (the base profile
does not use the two reserved keys, so each of its fields keeps its value
in the merged object). -/
theorem user_data_merge (profile : List (String × JValue))
    (actions documents : List JValue)
    (h1 : dlookup "suggestedActions" profile = none)
    (h2 : dlookup "documents" profile = none) :
    get_user_data profile actions documents =
      .ok (.obj [("success", .b true),
        ("data", .obj (profile ++ [("suggestedActions", .arr actions),
          ("documents", .arr documents)]))]) ∧
    dlookup "suggestedActions" (mergeUserData profile actions documents) =
      some (.arr actions) ∧
    dlookup "documents" (mergeUserData profile actions documents) =
      some (.arr documents) ∧
    ∀ k v, dlookup k profile = some v →
      dlookup k (mergeUserData profile actions documents) = some v := by
  have hm := mergeUserData_eq profile actions documents h1 h2
  refine ⟨?_, ?_, ?_, ?_⟩
  · unfold get_user_data
    rw [hm]
  · rw [hm, dlookup_append_right _ _ _ h1]
    rfl
  · rw [hm, dlookup_append_right _ _ _ h2]
    simp [dlookup]
  · intro k v hk
    rw [hm]
    exact dlookup_append_left k profile _ v hk

/-- Witness for `user_data_merge` at the modelled static data. -/
theorem user_data_merge_witness :
    (dlookup "suggestedActions" DEFAULT_USER_PROFILE = none ∧
      dlookup "documents" DEFAULT_USER_PROFILE = none) ∧
    get_user_data DEFAULT_USER_PROFILE SUGGESTED_ACTIONS_DATA DOCUMENTS_DATA =
      .ok (.obj [("success", .b true),
        ("data", .obj (DEFAULT_USER_PROFILE ++
          [("suggestedActions", .arr SUGGESTED_ACTIONS_DATA),
           ("documents", .arr DOCUMENTS_DATA)]))]) :=
  ⟨⟨rfl, rfl⟩,
    (user_data_merge DEFAULT_USER_PROFILE SUGGESTED_ACTIONS_DATA DOCUMENTS_DATA rfl rfl).1⟩

/-! ## The `/health` endpoint -/

/-- `digitChar` of anything reduced mod 10 is a decimal digit. -/
theorem digitChar_isDigit (n : Nat) : (digitChar (n % 10)).isDigit = true := by
  have h : n % 10 < 10 := Nat.mod_lt _ (by omega)
  have hall : ∀ m, m < 10 → (digitChar m).isDigit = true := by decide
  exact hall _ h

/-- Claim C8: the health check always succeeds — it is a total function with
no error constructor in its range — and its body carries `success: true`, a
message string, the fresh ISO-8601 timestamp, the version string, the
`pdf_exists` boolean and the `openai_configured` boolean. -/
theorem health_check_contract (now : PyDateTime) (apiVersion : Option String)
    (fs : FileSystem) (openai_api_key : Option String) :
    health_check now apiVersion fs openai_api_key =
      .ok (.obj [("success", .b true),
        ("message", .s "MayaCode Backend API is running"),
        ("timestamp", .s (String.mk now.isoformat)),
        ("version", .s (apiVersion.getD "v1")),
        ("pdf_exists", .b (fsExists fs)),
        ("openai_configured", .b (truthy openai_api_key))]) ∧
    isIso8601 now.isoformat = true := by
  refine ⟨rfl, ?_⟩
  unfold PyDateTime.isoformat pad4 pad2
  by_cases h : now.microsecond = 0
  · simp [h, isIso8601, isFrac, digitChar_isDigit]
  · simp [h, isIso8601, isFrac, pad6, digitChar_isDigit]

end Dashboard
